import Mathlib

/-!
Shallow embedding of `burnett/spectral_clustering.py` (class
`ProteinStuctureEmbeddings`) and proofs about its data-wrangling steps.

Conventions of the embedding:
* TM-scores are rationals (the source parses them as floating point
  numbers; all values of interest are short decimals, which rationals
  represent exactly).
* pandas dataframes become lists of records; a pivoted dataframe becomes
  a lookup function from a pair of labels to an optional value.
* Python runtime failures (NameError, TypeError, pandas ValueError) are
  modelled with an `Except` error value.
* numerical library routines (spectral clustering, spectral embedding,
  cluster scores) are out of scope and appear only as abstract
  parameters; the file proves nothing about their values.
-/

namespace Burnett

/-- Failure modes of the pipeline. `nameError` and `typeError` model the
Python exceptions of the same names, `valueError` models the pandas error
raised by `pivot` on duplicate index pairs, and `insufficientClusters` is
the evaluator failure when fewer than two distinct labels are present. -/
inductive PyError where
  | nameError
  | typeError
  | valueError
  | insufficientClusters
  deriving DecidableEq

/-- One row of the USalign alignment file read in `get_simi_matrix`
(line 92): two chain identifiers and the two directional TM-scores. -/
structure AlignRow where
  PDBchain1 : String
  PDBchain2 : String
  TM1 : ℚ
  TM2 : ℚ
  deriving DecidableEq

/-- Characters of `cs` up to, and excluding, the first occurrence of
`stop`. -/
def takeUntilChar (stop : Char) : List Char → List Char
  | [] => []
  | c :: cs => if c = stop then [] else c :: takeUntilChar stop cs

/-- Python `s.split(sep)[0]`: the part of `s` before the first occurrence
of the separator character (the whole of `s` when the separator does not
occur). -/
def splitHead (sep : Char) (s : String) : String :=
  String.mk (takeUntilChar sep s.data)

/-- Second chain identifier of a row after line 93 of the source, which
strips everything from the first dot on:
`df.PDBchain2 = df.PDBchain2.str.split('.', expand=True)[0]`. -/
def chain2 (r : AlignRow) : String :=
  splitHead '.' r.PDBchain2

/-- Line 97 of the source: `df['small_TM'] = df[['TM1', 'TM2']].min(axis=1)`,
the minimum of the two directional TM-scores of a row (written with the
executable rational comparison `Rat.blt`; `small_TM_eq_min` below shows
it agrees with `min`). -/
def small_TM (r : AlignRow) : ℚ :=
  if Rat.blt r.TM1 r.TM2 then r.TM1 else r.TM2

/-- Index pair under which a row lands in the pivoted dataframe of
line 101: first chain identifier and stripped second chain identifier. -/
def pivotKey (r : AlignRow) : String × String :=
  (r.PDBchain1, chain2 r)

/-- Precondition of `df.pivot` (line 101): pandas raises a ValueError
when two rows share the same (index, column) pair. -/
abbrev pivotKeysNodup (rows : List AlignRow) : Prop :=
  (rows.map pivotKey).Nodup

/-- Entry of the pivoted dataframe of line 101 at row label `i` and
column label `j`: the `small_TM` value of the input row with that key,
`none` (pandas NaN) when no input row has that key. -/
def pivotLookup (rows : List AlignRow) (i j : String) : Option ℚ :=
  (rows.find? (fun r => r.PDBchain1 == i && chain2 r == j)).map small_TM

/-- Entry of the final similarity matrix at `(i, j)`, after
`combine_first` with the transpose (line 103, the value of the matrix
itself wins over the transposed value) and `fillna(1)` (line 104). -/
def simiEntry (rows : List AlignRow) (i j : String) : ℚ :=
  match pivotLookup rows i j with
  | some v => v
  | none => (pivotLookup rows j i).getD 1

/-- List with duplicates removed (set of elements preserved). -/
def dedupStr : List String → List String
  | [] => []
  | s :: rest => if s ∈ rest then dedupStr rest else s :: dedupStr rest

/-- Code-point comparison of two character lists, the lexicographic order
Python `sorted` and the pandas index union use. -/
def strLeAux : List Char → List Char → Bool
  | [], _ => true
  | _ :: _, [] => false
  | a :: as, b :: bs =>
    if a.val.toNat < b.val.toNat then true
    else if b.val.toNat < a.val.toNat then false
    else strLeAux as bs

/-- Lexicographic order on strings by code point. -/
def strLeb (a b : String) : Bool :=
  strLeAux a.data b.data

/-- Insertion into a sorted list of strings. -/
def insertStr (s : String) : List String → List String
  | [] => [s]
  | t :: ts => if strLeb s t then s :: t :: ts else t :: insertStr s ts

/-- Insertion sort of a list of strings in lexicographic order. -/
def sortStr (l : List String) : List String :=
  l.foldr insertStr []

/-- Row and column labels of the final similarity matrix: the sorted
union of the row labels and the (stripped) column labels of the pivot,
which is how pandas aligns the matrix with its transpose in
`combine_first` (line 103). -/
def simiLabels (rows : List AlignRow) : List String :=
  sortStr (dedupStr (rows.map AlignRow.PDBchain1 ++ rows.map chain2))

/-- A labelled square similarity matrix. -/
structure SimiMatrix where
  labels : List String
  entry : String → String → ℚ

/-- Embedding of the whole method `get_simi_matrix` (lines 85–115).
Lines 92–104 build the symmetrised, NaN-filled matrix; line 109 then
evaluates `self.pid_mappings[species_name]`, and `species_name` is bound
nowhere in the method or module scope, so Python raises a NameError
before the method can return. Duplicate pivot keys make `df.pivot`
itself raise (modelled as `valueError`). -/
def get_simi_matrix (rows : List AlignRow) : Except PyError SimiMatrix :=
  if pivotKeysNodup rows then
    let _simi_matrix : SimiMatrix := ⟨simiLabels rows, simiEntry rows⟩
    Except.error PyError.nameError
  else
    Except.error PyError.valueError

/-- One row of a per-species protein-id-to-name mapping file as read on
line 62 of the source: a database protein id and a symbol field. -/
structure MappingRow where
  pid : String
  symbol : String
  deriving DecidableEq

/-- One row of the mapping table after `read_mapping` rewrote it:
lowercased id, reconstructed species-qualified symbol, and the derived
`gene_name` column. -/
structure MappedRow where
  pid : String
  symbol : String
  gene_name : String
  deriving DecidableEq

/-- Line 64 of the source:
`mapping['symbol'].str.split(' ', expand=True)[0]`, the part of the
symbol field before its first space. -/
def first_token (s : String) : String :=
  splitHead ' ' s

/-- Embedding of the method `read_mapping` (lines 54–68): derive
`gene_name` as the token of the symbol field before the first space,
rebuild `symbol` as `gene_name` followed by an underscore and the
species name (line 65), and lowercase the id field (line 66). The file
read itself (line 62) is out of scope; the parsed rows are the input. -/
def read_mapping (species_name : String) (rows : List MappingRow) :
    List MappedRow :=
  rows.map (fun r =>
    let gene_name := first_token r.symbol
    ⟨r.pid.toLower, gene_name ++ "_" ++ species_name, gene_name⟩)

/-- Loop of `get_species_gene_index` (lines 77–82), carrying the running
offset `n`, the concatenated gene-name list and the association list of
per-species `(start, stop)` ranges. The offset update is the source's
line 82, `n += n + len(gene_names)`, which adds the running total to
itself instead of advancing by the segment length. -/
def geneIndexGo (geneNames : String → List String) :
    List String → Nat → List String → List (String × Nat × Nat) →
    List String × List (String × Nat × Nat)
  | [], _, total_gene_names, species_gene_index =>
    (total_gene_names, species_gene_index)
  | species :: rest, n, total_gene_names, species_gene_index =>
    let gene_names := geneNames species
    geneIndexGo geneNames rest (n + (n + gene_names.length))
      (total_gene_names ++ gene_names)
      (species_gene_index ++ [(species, n, n + gene_names.length)])

/-- Embedding of the method `get_species_gene_index` (lines 70–83):
sort the species names (line 75) and walk them accumulating gene names
and index ranges. The call `read_mapping(self.map_dir, species)` on
line 78 refers to a module-level name that does not exist
(`read_mapping` is a method of the class), itself a defect; the
per-species gene-name lists it is meant to deliver are abstracted as
the `geneNames` parameter so that the index arithmetic of lines 79–82
can be analysed. -/
def get_species_gene_index (species_order : List String)
    (geneNames : String → List String) :
    List String × List (String × Nat × Nat) :=
  geneIndexGo geneNames (sortStr species_order) 0 [] []

/-- Result of `SpectralClustering(...).fit` as the source uses it:
the per-row labels, the engine's internal affinity matrix, and the
requested cluster count. -/
structure ClusteringResult where
  labels : List Nat
  affinity_matrix : SimiMatrix
  n_clusters : Nat

/-- Modelled from the spec: the spectral clustering engine itself is a
library capability outside this repository. It assigns one label per
row (the assignment is abstracted as the parameter `assign`), and with
`affinity='precomputed'` (line 127) its internal `affinity_matrix_` is
the input matrix. -/
def SpectralClustering_fit (assign : SimiMatrix → Nat → List Nat)
    (n_clusters : Nat) (simi_matrix : SimiMatrix) : ClusteringResult :=
  ⟨assign simi_matrix n_clusters, simi_matrix, n_clusters⟩

/-- Embedding of the method `clustering_embedding` (lines 117–147,
default cluster count 20): it fits the clustering engine (line 127),
stores the labels, builds `self.protein_cluster` from the protein order
and the labels (lines 130–133), and then, on line 134, evaluates the
bare name `protein_cluster` — which is bound neither in the method nor
at module scope (only the attribute `self.protein_cluster` was
assigned) — so Python raises a NameError before the
`spectral_embedding` call on lines 137–144 is ever reached. -/
def clustering_embedding (assign : SimiMatrix → Nat → List Nat)
    (simi_matrix : SimiMatrix) (n_clusters : Nat) :
    Except PyError (ClusteringResult × List (List ℚ)) :=
  let proteins_order := simi_matrix.labels
  let clustering := SpectralClustering_fit assign n_clusters simi_matrix
  let self_protein_cluster := proteins_order.zip clustering.labels
  let _ := self_protein_cluster
  Except.error PyError.nameError

/-- Embedding of the method `get_species_structure_embeddings`
(lines 149–153). Its first statement, line 150, evaluates
`self.total_gene_names[species_name]`; `total_gene_names` is a Python
list (initialised `[]` on line 38 and only ever extended with gene
names), and indexing a list with a string raises a TypeError, so the
method fails on every input before any row selection happens. -/
def get_species_structure_embeddings (total_gene_names : List String)
    (protein_cluster : List (String × Nat))
    (structure_embeddings : List (List ℚ)) (species_name : String) :
    Except PyError (List (List ℚ)) :=
  let _ := total_gene_names
  let _ := protein_cluster
  let _ := structure_embeddings
  let _ := species_name
  Except.error PyError.typeError

/-- Number of distinct labels in a label assignment. -/
def n_distinct_labels (labels : List ℕ) : ℕ :=
  labels.dedup.length

/-- Modelled from the spec: the evaluator (method `evaluate`,
lines 155–161) delegates to the library scorers
`silhouette_score(self.simi_matrix, self.labels, metric='precomputed')`
and `davies_bouldin_score`, which are outside this repository. Per the
spec's evaluator contract, the silhouette score is undefined for fewer
than 2 distinct labels and the call fails rather than returning a
number; the numeric values of the two scores are out of scope and are
abstracted as the parameters `sil` and `db`. -/
def evaluate (sil db : SimiMatrix → List ℕ → ℚ) (simi_matrix : SimiMatrix)
    (labels : List ℕ) : Except PyError (ℚ × ℚ) :=
  if n_distinct_labels labels < 2 then
    Except.error PyError.insufficientClusters
  else
    Except.ok (sil simi_matrix labels, db simi_matrix labels)

/-- Alignment rows of the spec's concrete scenario: `(A, B, 0.8, 0.9)`
and `(B, C, 0.5, 0.4)`. -/
def c3rows : List AlignRow :=
  [⟨"A", "B", mkRat 8 10, mkRat 9 10⟩, ⟨"B", "C", mkRat 5 10, mkRat 4 10⟩]

/-- Alignment input that reports the unordered pair `{A, B}` in both
directions with different row minima: `(A, B, 0.8, 0.9)` has minimum
0.8 while `(B, A, 0.5, 0.6)` has minimum 0.5. -/
def cex1rows : List AlignRow :=
  [⟨"A", "B", mkRat 8 10, mkRat 9 10⟩, ⟨"B", "A", mkRat 5 10, mkRat 6 10⟩]

/-- Alignment input reporting the pair `{A, B}` in both directions with
the same row minimum 0.8: `(A, B, 0.8, 0.9)` and `(B, A, 0.8, 0.85)`. -/
def w1rows : List AlignRow :=
  [⟨"A", "B", mkRat 8 10, mkRat 9 10⟩, ⟨"B", "A", mkRat 8 10, mkRat 85 100⟩]

/-- Alignment input with a self-alignment row `(A, A, 0.5, 0.6)`. -/
def cex5rows : List AlignRow :=
  [⟨"A", "A", mkRat 5 10, mkRat 6 10⟩]

/-- One alignment row `(A, B.pdb, 0.8, 0.9)`, whose second chain
identifier still carries a file suffix to be stripped. -/
def c4row : AlignRow :=
  ⟨"A", "B.pdb", mkRat 8 10, mkRat 9 10⟩

/-- Mapping rows whose symbol fields `G a` and `G b` share the first
token `G`. -/
def cex7rows : List MappingRow :=
  [⟨"P1", "G a"⟩, ⟨"P2", "G b"⟩]

/-- Mapping rows whose symbol fields have distinct first tokens. -/
def w7rows : List MappingRow :=
  [⟨"P1", "G1 x"⟩, ⟨"P2", "G2 y"⟩]

/-- The executable row minimum `small_TM` agrees with `min`. -/
theorem small_TM_eq_min (r : AlignRow) : small_TM r = min r.TM1 r.TM2 := by
  unfold small_TM
  by_cases hlt : r.TM1 < r.TM2
  · have hb : Rat.blt r.TM1 r.TM2 = true := hlt
    simp [hb, min_eq_left hlt.le]
  · have hb : Rat.blt r.TM1 r.TM2 = false := by
      cases hbb : Rat.blt r.TM1 r.TM2 with
      | false => rfl
      | true => exact absurd hbb hlt
    simp [hb, min_eq_right (not_lt.mp hlt)]

/-- Appending a fixed string on the right is cancellable. -/
theorem string_append_right_cancel {a b c : String} (h : a ++ c = b ++ c) :
    a = b := by
  have hd : a.data ++ c.data = b.data ++ c.data := by
    have := congrArg String.data h
    simpa [String.data_append] using this
  exact String.ext (List.append_cancel_right hd)

/-- In a row list with pairwise distinct pivot keys, `find?` on a row's
own key returns exactly that row. -/
theorem find?_pivotKey (r : AlignRow) :
    ∀ rows : List AlignRow, (rows.map pivotKey).Nodup → r ∈ rows →
      rows.find? (fun s => s.PDBchain1 == r.PDBchain1 && chain2 s == chain2 r) =
        some r := by
  intro rows
  induction rows with
  | nil => intro _ hr; cases hr
  | cons a l ih =>
    intro hkeys hr
    rcases List.mem_cons.mp hr with rfl | hrl
    · exact List.find?_cons_of_pos _ (by simp)
    · have hnd := List.nodup_cons.mp hkeys
      have hpa : ¬ (a.PDBchain1 == r.PDBchain1 && chain2 a == chain2 r) = true := by
        simp only [Bool.and_eq_true, beq_iff_eq]
        rintro ⟨h1, h2⟩
        apply hnd.1
        have hkey : pivotKey a = pivotKey r := by
          simp [pivotKey, h1, h2]
        rw [hkey]
        exact List.mem_map_of_mem pivotKey hrl
      exact (List.find?_cons_of_neg l hpa).trans (ih hnd.2 hrl)

/-- C1 (as stated the claim fails): the alignment input `cex1rows`
reports the unordered pair `{A, B}` in both directions with different
row minima, pandas `pivot` accepts it (keys are distinct), and the
final matrix is not symmetric: the `(A, B)` entry is 0.8 while the
`(B, A)` entry is 0.5, because `combine_first` keeps the matrix's own
value and only fills holes from the transpose. -/
theorem simi_matrix_not_symmetric_cex :
    pivotKeysNodup cex1rows ∧ "A" ∈ simiLabels cex1rows ∧
    "B" ∈ simiLabels cex1rows ∧
    simiEntry cex1rows "A" "B" ≠ simiEntry cex1rows "B" "A" := by
  decide

/-- C1 (amended): for every alignment input accepted by `pivot` in
which any two rows reporting the same unordered pair in opposite
directions have the same row minimum — in particular whenever each
unordered pair is reported in only one direction — the similarity
matrix is exactly symmetric on its labels. -/
theorem simi_matrix_symmetric_of_agreeing_reports (rows : List AlignRow)
    (hkeys : pivotKeysNodup rows)
    (hagree : ∀ r ∈ rows, ∀ s ∈ rows,
      r.PDBchain1 = chain2 s → chain2 r = s.PDBchain1 → small_TM r = small_TM s)
    (i j : String) (hi : i ∈ simiLabels rows) (hj : j ∈ simiLabels rows) :
    simiEntry rows i j = simiEntry rows j i := by
  unfold simiEntry
  rcases hij : pivotLookup rows i j with _ | v <;>
    rcases hji : pivotLookup rows j i with _ | w
  · simp
  · simp
  · simp
  · show v = w
    unfold pivotLookup at hij hji
    obtain ⟨r, hrfind, hrv⟩ := Option.map_eq_some'.mp hij
    obtain ⟨s, hsfind, hsw⟩ := Option.map_eq_some'.mp hji
    have hrmem := List.mem_of_find?_eq_some hrfind
    have hsmem := List.mem_of_find?_eq_some hsfind
    have hrp := List.find?_some hrfind
    have hsp := List.find?_some hsfind
    simp only [Bool.and_eq_true, beq_iff_eq] at hrp hsp
    have hagree_rs := hagree r hrmem s hsmem (hrp.1.trans hsp.2.symm)
      (hrp.2.trans hsp.1.symm)
    rw [← hrv, ← hsw]
    exact hagree_rs

/-- C1 witness: on the agreeing two-direction input `w1rows` the
symmetry theorem applies and gives equal `(A, B)` and `(B, A)`
entries. -/
theorem simi_matrix_symmetric_witness :
    simiEntry w1rows "A" "B" = simiEntry w1rows "B" "A" :=
  simi_matrix_symmetric_of_agreeing_reports w1rows (by decide) (by decide)
    "A" "B" (by decide) (by decide)

/-- C2 (code defect, evaluated): with species order `[c, a, b]` and one
gene per species, the method sorts the species, but the accumulation
`n += n + len(gene_names)` of line 82 doubles the running offset: the
recorded ranges are `(0, 1)`, `(1, 2)` and `(3, 4)` over only 3
concatenated genes, so index 2 is covered by no range and the last
range lies beyond the total gene count. -/
theorem species_gene_index_gap :
    get_species_gene_index ["c", "a", "b"] (fun s => [s]) =
      (["a", "b", "c"], [("a", 0, 1), ("b", 1, 2), ("c", 3, 4)]) ∧
    (get_species_gene_index ["c", "a", "b"] (fun s => [s])).1.length = 3 := by
  decide

/-- C3: on the scenario input with rows `(A, B, 0.8, 0.9)` and
`(B, C, 0.5, 0.4)` and no mapping applied, the matrix built by
lines 92–104 is 3-by-3 over the labels A, B, C with the stated
symmetric entries, default fill 1.0 and unit diagonal. -/
theorem simi_matrix_scenario_ABC :
    pivotKeysNodup c3rows ∧
    simiLabels c3rows = ["A", "B", "C"] ∧
    simiEntry c3rows "A" "B" = 0.8 ∧ simiEntry c3rows "B" "A" = 0.8 ∧
    simiEntry c3rows "B" "C" = 0.4 ∧ simiEntry c3rows "C" "B" = 0.4 ∧
    simiEntry c3rows "A" "C" = 1 ∧ simiEntry c3rows "C" "A" = 1 ∧
    simiEntry c3rows "A" "A" = 1 ∧ simiEntry c3rows "B" "B" = 1 ∧
    simiEntry c3rows "C" "C" = 1 := by
  have h8 : (0.8 : ℚ) = mkRat 8 10 := by norm_num
  have h4 : (0.4 : ℚ) = mkRat 4 10 := by norm_num
  simp only [h8, h4]
  decide

/-- C4: whenever pandas `pivot` accepts the input (pairwise distinct
directed keys), the matrix entry at a row's own key pair equals the
minimum of that row's two directional TM-scores. -/
theorem simi_entry_eq_min_TM (rows : List AlignRow)
    (hkeys : pivotKeysNodup rows) (r : AlignRow) (hr : r ∈ rows) :
    simiEntry rows r.PDBchain1 (chain2 r) = min r.TM1 r.TM2 := by
  have hfind := find?_pivotKey r rows hkeys hr
  unfold simiEntry pivotLookup
  rw [hfind]
  simp [small_TM_eq_min]

/-- C4 witness: on the single row `(A, B.pdb, 0.8, 0.9)` the entry at
`(A, B)` is the minimum of the two scores. -/
theorem simi_entry_eq_min_TM_witness :
    simiEntry [c4row] c4row.PDBchain1 (chain2 c4row) = min c4row.TM1 c4row.TM2 :=
  simi_entry_eq_min_TM [c4row] (by decide) c4row (by decide)

/-- C5 (as stated the claim fails): on the input with the single
self-alignment row `(A, A, 0.5, 0.6)` the diagonal entry `(A, A)` is
observed and equals 0.5, not the default 1.0, so diagonal entries are
not always among the default-filled ones. -/
theorem simi_matrix_diagonal_not_one_cex :
    pivotKeysNodup cex5rows ∧ "A" ∈ simiLabels cex5rows ∧
    simiEntry cex5rows "A" "A" = 0.5 ∧ simiEntry cex5rows "A" "A" ≠ 1 := by
  have h5 : (0.5 : ℚ) = mkRat 5 10 := by norm_num
  simp only [h5]
  decide

/-- C5 (amended): every entry of the final matrix whose label pair is
observed in neither direction in the input — which includes a diagonal
entry exactly when the input has no self-alignment row for that
chain — equals 1.0. -/
theorem simi_entry_unobserved_eq_one (rows : List AlignRow)
    (hkeys : pivotKeysNodup rows) (i j : String)
    (hi : i ∈ simiLabels rows) (hj : j ∈ simiLabels rows)
    (hij : ∀ r ∈ rows, ¬ (r.PDBchain1 = i ∧ chain2 r = j))
    (hji : ∀ r ∈ rows, ¬ (r.PDBchain1 = j ∧ chain2 r = i)) :
    simiEntry rows i j = 1 := by
  have h1 : rows.find? (fun r => r.PDBchain1 == i && chain2 r == j) = none := by
    rw [List.find?_eq_none]
    intro r hr
    simpa using hij r hr
  have h2 : rows.find? (fun r => r.PDBchain1 == j && chain2 r == i) = none := by
    rw [List.find?_eq_none]
    intro r hr
    simpa using hji r hr
  unfold simiEntry pivotLookup
  rw [h1, h2]
  simp

/-- C5 witness: on the scenario input the pair `(A, C)` is observed in
neither direction and its entry is the default 1.0. -/
theorem simi_entry_unobserved_eq_one_witness :
    simiEntry c3rows "A" "C" = 1 :=
  simi_entry_unobserved_eq_one c3rows (by decide) "A" "C" (by decide)
    (by decide) (by decide) (by decide)

/-- C6 (code defect, evaluated): for every label assignment, similarity
matrix and cluster count, `clustering_embedding` raises a NameError at
the bare `protein_cluster` reference of line 134 before the
`spectral_embedding` call, so no run returns an embedding. -/
theorem clustering_embedding_raises_nameError
    (assign : SimiMatrix → Nat → List Nat) (simi_matrix : SimiMatrix)
    (n_clusters : Nat) :
    clustering_embedding assign simi_matrix n_clusters =
      Except.error PyError.nameError :=
  rfl

/-- C7 (as stated the claim fails): the two mapping rows of `cex7rows`
have distinct ids and distinct symbol fields, yet their symbol fields
share the first token `G`, so `read_mapping` outputs the symbol `G_sp`
twice: output symbols are not unique. -/
theorem read_mapping_duplicate_symbols_cex :
    (cex7rows.map MappingRow.symbol).Nodup ∧
    (cex7rows.map MappingRow.pid).Nodup ∧
    ¬ ((read_mapping "sp" cex7rows).map MappedRow.symbol).Nodup := by
  decide

/-- C7 (amended): every output row of `read_mapping` comes from an
input row, with symbol rebuilt as the first space-delimited token of
the input symbol followed by an underscore and the species name, the id
lowercased, the `gene_name` column set to that token; and the output
symbols are unique whenever the input rows' first tokens are pairwise
distinct. -/
theorem read_mapping_symbols_wellformed (species_name : String)
    (rows : List MappingRow) :
    (∀ m ∈ read_mapping species_name rows, ∃ r ∈ rows,
        m.symbol = first_token r.symbol ++ "_" ++ species_name ∧
        m.pid = r.pid.toLower ∧ m.gene_name = first_token r.symbol) ∧
    ((rows.map (fun r => first_token r.symbol)).Nodup →
      ((read_mapping species_name rows).map MappedRow.symbol).Nodup) := by
  constructor
  · intro m hm
    unfold read_mapping at hm
    obtain ⟨r, hr, hmr⟩ := List.mem_map.mp hm
    exact ⟨r, hr, by rw [← hmr], by rw [← hmr], by rw [← hmr]⟩
  · intro hnd
    have hmap : (read_mapping species_name rows).map MappedRow.symbol =
        (rows.map (fun r => first_token r.symbol)).map
          (fun t => t ++ "_" ++ species_name) := by
      unfold read_mapping
      rw [List.map_map, List.map_map]
      rfl
    rw [hmap]
    refine List.Nodup.map ?_ hnd
    intro a b hab
    exact string_append_right_cancel (string_append_right_cancel hab)

/-- C7 witness: on two rows with distinct first tokens the output
symbols are unique. -/
theorem read_mapping_symbols_wellformed_witness :
    ((read_mapping "sp" w7rows).map MappedRow.symbol).Nodup :=
  (read_mapping_symbols_wellformed "sp" w7rows).2 (by decide)

/-- C8 (code defect, evaluated): for every pipeline state and species
name, `get_species_structure_embeddings` raises a TypeError at line 150
(a Python list indexed with a string), so it neither returns embedding
rows nor raises an unknown-species failure. -/
theorem get_species_structure_embeddings_raises_typeError
    (total_gene_names : List String) (protein_cluster : List (String × Nat))
    (structure_embeddings : List (List ℚ)) (species_name : String) :
    get_species_structure_embeddings total_gene_names protein_cluster
      structure_embeddings species_name = Except.error PyError.typeError :=
  rfl

/-- C9: with fewer than 2 distinct labels the evaluator fails with the
insufficient-clusters error instead of returning scores, for every
choice of the abstracted library scorers. -/
theorem evaluate_insufficient_clusters (sil db : SimiMatrix → List ℕ → ℚ)
    (simi_matrix : SimiMatrix) (labels : List ℕ)
    (h : n_distinct_labels labels < 2) :
    evaluate sil db simi_matrix labels =
      Except.error PyError.insufficientClusters := by
  simp [evaluate, h]

/-- C9 witness: a two-element label list with a single distinct label
makes the evaluator fail. -/
theorem evaluate_insufficient_clusters_witness :
    evaluate (fun _ _ => 0) (fun _ _ => 0) ⟨["A", "B"], fun _ _ => 1⟩ [0, 0] =
      Except.error PyError.insufficientClusters :=
  evaluate_insufficient_clusters _ _ _ _ (by decide)

/-- C10: whenever pandas `pivot` accepts the alignment input, control
reaches the relabeling step of `get_simi_matrix` (line 109), where the
unbound name `species_name` makes the method raise a NameError instead
of returning the matrix. -/
theorem get_simi_matrix_raises_nameError (rows : List AlignRow)
    (hkeys : pivotKeysNodup rows) :
    get_simi_matrix rows = Except.error PyError.nameError := by
  simp [get_simi_matrix, hkeys]

/-- C10 witness: the scenario input has distinct pivot keys and the
method fails on it with a NameError. -/
theorem get_simi_matrix_raises_nameError_witness :
    get_simi_matrix c3rows = Except.error PyError.nameError :=
  get_simi_matrix_raises_nameError c3rows (by decide)

end Burnett
